import Mathlib

/-!
Shallow embedding of the IRQ offload/bypass manager (the producer/consumer
registry and its connect/disconnect protocol).

Producers and consumers are modelled as records: `id` stands for the object's
address (identity), `token` for the opaque token (`0` models a NULL token), a
`has_*` flag for the presence of each optional callback pointer, and an
`*_ret` field for the value the (external, pure-from-the-registry's-view)
fallible callback returns when invoked.  Every API operation returns, besides
its result and the new registry state, the list of callback invocations it
performed, in order, so that claims about which callbacks run can be stated.

The module refcount (the liveness guard) is modelled by `refcount : Nat`
together with `alive : Bool`; `try_module_get` succeeds exactly when `alive`
is true, incrementing `refcount`, and `module_put` decrements it.
-/

namespace IrqBypass

/-- An IRQ bypass producer: `struct irq_bypass_producer`. -/
structure Producer where
  id : Nat
  token : Nat
  has_stop : Bool
  has_start : Bool
  has_add_consumer : Bool
  add_consumer_ret : Int
  has_del_consumer : Bool
  deriving DecidableEq, Repr

/-- An IRQ bypass consumer: `struct irq_bypass_consumer`. -/
structure Consumer where
  id : Nat
  token : Nat
  has_stop : Bool
  has_start : Bool
  has_add_producer : Bool
  add_producer_ret : Int
  has_del_producer : Bool
  deriving DecidableEq, Repr

/-- A callback invocation performed by the registry, or the entry into a
`__connect`/`__disconnect` protocol run. -/
inductive Event where
  | prodStop (p : Nat)
  | consStop (c : Nat)
  | addConsumer (p c : Nat)
  | addProducer (c p : Nat)
  | delConsumer (p c : Nat)
  | delProducer (c p : Nat)
  | consStart (c : Nat)
  | prodStart (p : Nat)
  | connectEv (p c : Nat)
  | disconnectEv (p c : Nat)
  deriving DecidableEq, Repr

/-- Recognise the marker of a `__connect` invocation. -/
def Event.isConnect : Event → Bool
  | .connectEv _ _ => true
  | _ => false

/-- Recognise a `start` callback invocation (either side). -/
def Event.isStart : Event → Bool
  | .consStart _ => true
  | .prodStart _ => true
  | _ => false

/-- Recognise a `stop` callback invocation (either side). -/
def Event.isStop : Event → Bool
  | .prodStop _ => true
  | .consStop _ => true
  | _ => false

/-- The stop sequence shared by `__connect` and `__disconnect`:
`prod->stop` then `cons->stop`, each if present. -/
def stopEvents (prod : Producer) (cons : Consumer) : List Event :=
  (if prod.has_stop then [Event.prodStop prod.id] else []) ++
  (if cons.has_stop then [Event.consStop cons.id] else [])

/-- The restart sequence shared by `__connect` and `__disconnect`:
`cons->start` then `prod->start`, each if present. -/
def startEvents (prod : Producer) (cons : Consumer) : List Event :=
  (if cons.has_start then [Event.consStart cons.id] else []) ++
  (if prod.has_start then [Event.prodStart prod.id] else [])

/-- Tail of `__connect` after the `add_consumer` step: the mandatory
`cons->add_producer(cons, prod)` call, the `prod->del_consumer` rollback when
it failed, and the restart sequence.  `pre` is the trace accumulated so far. -/
def connectAdd (prod : Producer) (cons : Consumer) (pre : List Event) :
    Int × List Event :=
  (cons.add_producer_ret,
   pre ++ [Event.addProducer cons.id prod.id] ++
   (if cons.add_producer_ret ≠ 0 ∧ prod.has_del_consumer then
      [Event.delConsumer prod.id cons.id] else []) ++
   startEvents prod cons)

/-- Body of `__connect(prod, cons)`.  Note the early return when
`prod->add_consumer` is present and fails: the function returns without
running the restart sequence. -/
def connectBody (prod : Producer) (cons : Consumer) : Int × List Event :=
  let pre := stopEvents prod cons
  if prod.has_add_consumer then
    if prod.add_consumer_ret ≠ 0 then
      (prod.add_consumer_ret, pre ++ [Event.addConsumer prod.id cons.id])
    else
      connectAdd prod cons (pre ++ [Event.addConsumer prod.id cons.id])
  else
    connectAdd prod cons pre

/-- `__connect(prod, cons)`: result code and trace, with a `connectEv` marker
recording that one `__connect` invocation took place. -/
def connect (prod : Producer) (cons : Consumer) : Int × List Event :=
  ((connectBody prod cons).1,
   Event.connectEv prod.id cons.id :: (connectBody prod cons).2)

/-- `__disconnect(prod, cons)`: trace of callback invocations, with a
`disconnectEv` marker. -/
def disconnect (prod : Producer) (cons : Consumer) : List Event :=
  Event.disconnectEv prod.id cons.id ::
  (stopEvents prod cons ++ [Event.delProducer cons.id prod.id] ++
   (if prod.has_del_consumer then [Event.delConsumer prod.id cons.id] else []) ++
   startEvents prod cons)

/-- Error codes (the registry returns their negations). -/
def EINVAL : Int := 22

/-- Error code for a duplicate registration. -/
def EBUSY : Int := 16

/-- Error code for a failed `try_module_get`. -/
def ENODEV : Int := 19

/-- The registry state: the two entry lists (`list_add` adds at the head),
the module reference count, and whether `try_module_get` can still succeed. -/
structure Registry where
  producers : List Producer
  consumers : List Consumer
  refcount : Nat
  alive : Bool
  deriving DecidableEq, Repr

/-- The initial, empty registry. -/
def registryInit : Registry := ⟨[], [], 0, true⟩

/-- `irq_bypass_register_producer`: returns the result code, the new registry
state, and the trace of callback invocations. -/
def irq_bypass_register_producer (st : Registry) (producer : Producer) :
    Int × Registry × List Event :=
  if producer.token = 0 then (-EINVAL, st, [])
  else if st.alive = false then (-ENODEV, st, [])
  else if st.producers.any (fun tmp => tmp.token == producer.token) then
    (-EBUSY, { st with refcount := st.refcount + 1 - 1 }, [])
  else
    match st.consumers.find? (fun consumer => consumer.token == producer.token) with
    | some consumer =>
      if (connect producer consumer).1 ≠ 0 then
        ((connect producer consumer).1,
         { st with refcount := st.refcount + 1 - 1 }, (connect producer consumer).2)
      else
        (0, { st with
              producers := (producer :: st.producers)
              refcount := st.refcount + 1 }, (connect producer consumer).2)
    | none =>
      (0, { st with
            producers := (producer :: st.producers)
            refcount := st.refcount + 1 }, [])

/-- `irq_bypass_unregister_producer`: the scan looks for a registered entry
by TOKEN equality; on a match the pair is disconnected (if a consumer shares
the token, using the ARGUMENT's callbacks) and two references are dropped
(the loop's `module_put` plus the call's own).  The removal, however, is
`list_del(&producer->node)` on the ARGUMENT's own node: it unlinks the
argument if it is in the list (the argument's identity), and unlinks nothing
from the list when a distinct object merely shares the registered token —
the token-matched registered entry stays. -/
def irq_bypass_unregister_producer (st : Registry) (producer : Producer) :
    Registry × List Event :=
  if producer.token = 0 then (st, [])
  else if st.alive = false then (st, [])
  else
    match st.producers.find? (fun tmp => tmp.token == producer.token) with
    | some _ =>
      ({ st with
         producers := st.producers.eraseP (fun tmp => tmp.id == producer.id)
         refcount := st.refcount + 1 - 1 - 1 },
       match st.consumers.find? (fun consumer => consumer.token == producer.token) with
       | some consumer => disconnect producer consumer
       | none => [])
    | none => ({ st with refcount := st.refcount + 1 - 1 }, [])

/-- `irq_bypass_register_consumer`: like the producer variant, but the token
must come with both mandatory callbacks, and the duplicate scan rejects a
token match OR the same object (`tmp == consumer`). -/
def irq_bypass_register_consumer (st : Registry) (consumer : Consumer) :
    Int × Registry × List Event :=
  if consumer.token = 0 ∨ consumer.has_add_producer = false ∨
      consumer.has_del_producer = false then (-EINVAL, st, [])
  else if st.alive = false then (-ENODEV, st, [])
  else if st.consumers.any (fun tmp => tmp.token == consumer.token || tmp.id == consumer.id) then
    (-EBUSY, { st with refcount := st.refcount + 1 - 1 }, [])
  else
    match st.producers.find? (fun producer => producer.token == consumer.token) with
    | some producer =>
      if (connect producer consumer).1 ≠ 0 then
        ((connect producer consumer).1,
         { st with refcount := st.refcount + 1 - 1 }, (connect producer consumer).2)
      else
        (0, { st with
              consumers := (consumer :: st.consumers)
              refcount := st.refcount + 1 }, (connect producer consumer).2)
    | none =>
      (0, { st with
            consumers := (consumer :: st.consumers)
            refcount := st.refcount + 1 }, [])

/-- `irq_bypass_unregister_consumer`: the registered entry is looked up by
IDENTITY (`tmp != consumer` skips), unlike the producer variant. -/
def irq_bypass_unregister_consumer (st : Registry) (consumer : Consumer) :
    Registry × List Event :=
  if consumer.token = 0 then (st, [])
  else if st.alive = false then (st, [])
  else
    match st.consumers.find? (fun tmp => tmp.id == consumer.id) with
    | some _ =>
      ({ st with
         consumers := st.consumers.eraseP (fun tmp => tmp.id == consumer.id)
         refcount := st.refcount + 1 - 1 - 1 },
       match st.producers.find? (fun producer => producer.token == consumer.token) with
       | some producer => disconnect producer consumer
       | none => [])
    | none => ({ st with refcount := st.refcount + 1 - 1 }, [])

/-- One invocation of any of the four public operations. -/
inductive Op where
  | regP (p : Producer)
  | unregP (p : Producer)
  | regC (c : Consumer)
  | unregC (c : Consumer)
  deriving Repr

/-- The state reached after one operation (results and traces discarded). -/
def runOp (st : Registry) : Op → Registry
  | .regP p => (irq_bypass_register_producer st p).2.1
  | .unregP p => (irq_bypass_unregister_producer st p).1
  | .regC c => (irq_bypass_register_consumer st c).2.1
  | .unregC c => (irq_bypass_unregister_consumer st c).1

/-- The state reached from the empty registry after a sequence of operations. -/
def runOps (ops : List Op) : Registry := ops.foldl runOp registryInit

/-- The registry's structural invariant: producer tokens are pairwise
distinct, consumer tokens are pairwise distinct, and consumer identities are
pairwise distinct. -/
def wellFormed (st : Registry) : Prop :=
  st.producers.Pairwise (fun a b => a.token ≠ b.token) ∧
  st.consumers.Pairwise (fun a b => a.token ≠ b.token) ∧
  st.consumers.Pairwise (fun a b => a.id ≠ b.id)

/-- An `unregisterProducer` argument is well-used at a state when the entry
its token scan would find (if any) is the argument itself — the kernel API's
intended usage, under which `list_del(&producer->node)` unlinks exactly the
found entry.  An aliased argument (distinct object, registered token) makes
the source `list_del` an unlinked foreign node. -/
def argMatchesFound (st : Registry) (p : Producer) : Bool :=
  match st.producers.find? (fun tmp => tmp.token == p.token) with
  | some x => x.id == p.id
  | none => true

/-- The per-operation well-usage guard: only `unregisterProducer` is
sensitive to aliasing. -/
def opGuardOk (st : Registry) : Op → Bool
  | .unregP p => argMatchesFound st p
  | _ => true

/-- A sequence of operations is well-used from a state when every
`unregisterProducer` call along the way passes the registered entry itself. -/
def wellUsed : Registry → List Op → Bool
  | _, [] => true
  | st, op :: rest => opGuardOk st op && wellUsed (runOp st op) rest

/-- When the `add_consumer` step is absent or succeeds, `__connect` returns
whatever the mandatory `add_producer` callback returned. -/
theorem connect_fst (prod : Producer) (cons : Consumer)
    (h : prod.has_add_consumer = false ∨ prod.add_consumer_ret = 0) :
    (connect prod cons).1 = cons.add_producer_ret := by
  cases hac : prod.has_add_consumer <;> rcases h with h | h <;>
    simp_all [connect, connectBody, connectAdd]

/-- C1: the claim says the restart step of `connect` runs unconditionally,
even when `p.addConsumer` fails.  The code instead returns early from
`__connect` when `add_consumer` fails: at the concrete input below (both
sides supply `start`, `add_consumer` returns `-5`) the error is propagated
but no `start` callback is invoked, while both `stop` callbacks were — both
sides are left stopped, contradicting the claim (and the documented
protocol). -/
theorem c1_connect_skips_restart_on_add_consumer_failure :
    (connect ⟨1, 5, true, true, true, -5, true⟩
             ⟨2, 5, true, true, true, 0, true⟩).1 = -5 ∧
    ((connect ⟨1, 5, true, true, true, -5, true⟩
              ⟨2, 5, true, true, true, 0, true⟩).2.filter Event.isStart) = [] ∧
    ((connect ⟨1, 5, true, true, true, -5, true⟩
              ⟨2, 5, true, true, true, 0, true⟩).2.filter Event.isStop) =
      [Event.prodStop 1, Event.consStop 2] := by decide

/-- C8: `registerConsumer` returns `-EINVAL` and leaves the registry
untouched (and invokes no callbacks) whenever the token is null or either
mandatory capability is missing. -/
theorem c8_register_consumer_invalid (st : Registry) (c : Consumer)
    (h : c.token = 0 ∨ c.has_add_producer = false ∨ c.has_del_producer = false) :
    irq_bypass_register_consumer st c = (-EINVAL, st, []) := by
  unfold irq_bypass_register_consumer
  rw [if_pos h]

/-- Witness for C8 at a concrete consumer lacking `del_producer`. -/
theorem c8_register_consumer_invalid_witness :
    ((⟨1, 2, false, false, true, 0, false⟩ : Consumer).token = 0 ∨
     (⟨1, 2, false, false, true, 0, false⟩ : Consumer).has_add_producer = false ∨
     (⟨1, 2, false, false, true, 0, false⟩ : Consumer).has_del_producer = false) ∧
    irq_bypass_register_consumer registryInit ⟨1, 2, false, false, true, 0, false⟩ =
      (-EINVAL, registryInit, []) :=
  ⟨by decide, c8_register_consumer_invalid registryInit _ (by decide)⟩

/-- C5: registering a producer whose token is already taken returns `-EBUSY`,
leaves the registry unchanged, and invokes no callbacks (no connect is
attempted). -/
theorem c5_register_producer_duplicate_token (st : Registry) (p : Producer)
    (ht : p.token ≠ 0) (ha : st.alive = true)
    (hdup : st.producers.any (fun tmp => tmp.token == p.token) = true) :
    irq_bypass_register_producer st p = (-EBUSY, st, []) := by
  unfold irq_bypass_register_producer
  rw [if_neg ht, if_neg (by simp [ha]), if_pos hdup]
  rfl

/-- Witness for C5: a second producer with token 5 is rejected. -/
theorem c5_register_producer_duplicate_token_witness :
    ((⟨2, 5, false, false, false, 0, false⟩ : Producer).token ≠ 0) ∧
    (Registry.mk [⟨1, 5, false, false, false, 0, false⟩] [] 1 true).alive = true ∧
    ((Registry.mk [⟨1, 5, false, false, false, 0, false⟩] [] 1 true).producers.any
      (fun tmp => tmp.token == (5 : Nat)) = true) ∧
    irq_bypass_register_producer ⟨[⟨1, 5, false, false, false, 0, false⟩], [], 1, true⟩
      ⟨2, 5, false, false, false, 0, false⟩ =
      (-EBUSY, ⟨[⟨1, 5, false, false, false, 0, false⟩], [], 1, true⟩, []) :=
  ⟨by decide, by decide, by decide,
   c5_register_producer_duplicate_token _ _ (by decide) (by decide) (by decide)⟩

/-- C2: if the matched producer's `add_consumer` step is absent or succeeds
but the consumer's `add_producer` fails during the connect attempted inside
`registerConsumer`, the call returns that underlying error and the registry
state (consumer set, producer set and the refcount, i.e. the liveness guard
reference taken for the call) is exactly as before the call. -/
theorem c2_register_consumer_connect_failure (st : Registry) (c : Consumer)
    (P : Producer)
    (hv1 : c.token ≠ 0) (hv2 : c.has_add_producer = true)
    (hv3 : c.has_del_producer = true) (ha : st.alive = true)
    (hdup : st.consumers.any
      (fun tmp => tmp.token == c.token || tmp.id == c.id) = false)
    (hfind : st.producers.find? (fun producer => producer.token == c.token) = some P)
    (hac : P.has_add_consumer = false ∨ P.add_consumer_ret = 0)
    (hfail : c.add_producer_ret ≠ 0) :
    (irq_bypass_register_consumer st c).1 = c.add_producer_ret ∧
    (irq_bypass_register_consumer st c).2.1 = st := by
  have h1 : ¬(c.token = 0 ∨ c.has_add_producer = false ∨
      c.has_del_producer = false) := by simp [hv1, hv2, hv3]
  have hc := connect_fst P c hac
  unfold irq_bypass_register_consumer
  rw [if_neg h1, if_neg (by simp [ha]), if_neg (by simp [hdup]), hfind]
  simp only []
  rw [hc, if_pos hfail]
  exact ⟨rfl, rfl⟩

/-- Witness for C2: producer with token 5 registered, consumer with token 5
whose `add_producer` returns `-3`. -/
theorem c2_register_consumer_connect_failure_witness :
    ((⟨2, 5, false, false, true, -3, true⟩ : Consumer).token ≠ 0) ∧
    ((Registry.mk [⟨1, 5, false, false, false, 0, false⟩] [] 1 true).producers.find?
      (fun producer => producer.token == (5 : Nat)) =
      some ⟨1, 5, false, false, false, 0, false⟩) ∧
    (irq_bypass_register_consumer ⟨[⟨1, 5, false, false, false, 0, false⟩], [], 1, true⟩
      ⟨2, 5, false, false, true, -3, true⟩).1 = -3 ∧
    (irq_bypass_register_consumer ⟨[⟨1, 5, false, false, false, 0, false⟩], [], 1, true⟩
      ⟨2, 5, false, false, true, -3, true⟩).2.1 =
      ⟨[⟨1, 5, false, false, false, 0, false⟩], [], 1, true⟩ :=
  ⟨by decide, by decide,
   (c2_register_consumer_connect_failure _ _ ⟨1, 5, false, false, false, 0, false⟩
     (by decide) (by decide) (by decide) (by decide) (by decide) (by decide)
     (by decide) (by decide)).1,
   (c2_register_consumer_connect_failure _ _ ⟨1, 5, false, false, false, 0, false⟩
     (by decide) (by decide) (by decide) (by decide) (by decide) (by decide)
     (by decide) (by decide)).2⟩

/-- C4: in `__connect`, when `add_consumer` was attempted and succeeded and
`add_producer` then fails, the `del_consumer` rollback runs exactly when the
producer supplies it; the call returns the `add_producer` error; and in
general `__connect` succeeds iff every attempted add step succeeded, returning
the first error encountered among the `add_consumer` and `add_producer`
calls. -/
theorem c4_connect_rollback_and_result (prod : Producer) (cons : Consumer)
    (h1 : prod.has_add_consumer = true) (h2 : prod.add_consumer_ret = 0)
    (h3 : cons.add_producer_ret ≠ 0) :
    ((Event.delConsumer prod.id cons.id ∈ (connect prod cons).2) ↔
      prod.has_del_consumer = true) ∧
    (connect prod cons).1 = cons.add_producer_ret ∧
    (∀ p : Producer, ∀ c : Consumer,
      ((connect p c).1 = 0 ↔
        ((p.has_add_consumer = true → p.add_consumer_ret = 0) ∧
         c.add_producer_ret = 0))) ∧
    (∀ p : Producer, ∀ c : Consumer,
      (connect p c).1 =
        (if p.has_add_consumer = true ∧ p.add_consumer_ret ≠ 0 then
          p.add_consumer_ret else c.add_producer_ret)) := by
  refine ⟨?_, connect_fst prod cons (Or.inr h2), ?_, ?_⟩
  · cases hd : prod.has_del_consumer <;>
      simp [connect, connectBody, connectAdd, stopEvents, startEvents,
        h1, h2, h3, hd]
  · intro p c
    cases hp : p.has_add_consumer <;> by_cases hr : p.add_consumer_ret = 0 <;>
      simp [connect, connectBody, connectAdd, hp, hr]
  · intro p c
    cases hp : p.has_add_consumer <;> by_cases hr : p.add_consumer_ret = 0 <;>
      simp [connect, connectBody, connectAdd, hp, hr]

/-- Witness for C4 at a producer whose `add_consumer` succeeds, with the
`del_consumer` rollback present, and a consumer whose `add_producer` fails. -/
theorem c4_connect_rollback_and_result_witness :
    ((⟨1, 5, false, false, true, 0, true⟩ : Producer).has_add_consumer = true) ∧
    ((⟨2, 5, false, false, true, -7, true⟩ : Consumer).add_producer_ret ≠ 0) ∧
    ((Event.delConsumer 1 2 ∈
        (connect ⟨1, 5, false, false, true, 0, true⟩
                 ⟨2, 5, false, false, true, -7, true⟩).2) ↔
      (⟨1, 5, false, false, true, 0, true⟩ : Producer).has_del_consumer = true) ∧
    (connect ⟨1, 5, false, false, true, 0, true⟩
             ⟨2, 5, false, false, true, -7, true⟩).1 = -7 :=
  ⟨by decide, by decide,
   (c4_connect_rollback_and_result ⟨1, 5, false, false, true, 0, true⟩
     ⟨2, 5, false, false, true, -7, true⟩ (by decide) (by decide) (by decide)).1,
   (c4_connect_rollback_and_result ⟨1, 5, false, false, true, 0, true⟩
     ⟨2, 5, false, false, true, -7, true⟩ (by decide) (by decide) (by decide)).2.1⟩

/-- Every `__connect` invocation contributes exactly one `connectEv` marker
to its trace: none of the callback events it records is a `connectEv`. -/
theorem connect_filter_isConnect (p : Producer) (c : Consumer) :
    (connect p c).2.filter Event.isConnect = [Event.connectEv p.id c.id] := by
  simp only [connect, connectBody, connectAdd, stopEvents, startEvents]
  split_ifs <;> simp [Event.isConnect]

/-- C3: from the empty registry, registering a producer and then a consumer
sharing a (non-null) token makes both calls succeed, performs exactly one
`__connect` invocation — on that pair — across the two calls, and leaves both
entries registered. -/
theorem c3_register_pair_connects_once (T : Nat) (P : Producer) (C : Consumer)
    (hT : T ≠ 0) (hP : P.token = T) (hC : C.token = T)
    (hCap1 : C.has_add_producer = true) (hCap2 : C.has_del_producer = true)
    (hac : P.has_add_consumer = false ∨ P.add_consumer_ret = 0)
    (hap : C.add_producer_ret = 0) :
    (irq_bypass_register_producer registryInit P).1 = 0 ∧
    (irq_bypass_register_consumer
      (irq_bypass_register_producer registryInit P).2.1 C).1 = 0 ∧
    (((irq_bypass_register_producer registryInit P).2.2 ++
      (irq_bypass_register_consumer
        (irq_bypass_register_producer registryInit P).2.1 C).2.2).filter
          Event.isConnect) = [Event.connectEv P.id C.id] ∧
    (irq_bypass_register_consumer
      (irq_bypass_register_producer registryInit P).2.1 C).2.1.consumers = [C] ∧
    (irq_bypass_register_consumer
      (irq_bypass_register_producer registryInit P).2.1 C).2.1.producers = [P] := by
  have hPt : ¬ P.token = 0 := by rw [hP]; exact hT
  have hr1 : irq_bypass_register_producer registryInit P =
      (0, ⟨[P], [], 1, true⟩, []) := by
    unfold irq_bypass_register_producer registryInit
    rw [if_neg hPt]
    simp
  have hbeq : (P.token == C.token) = true := by rw [hP, hC]; simp
  have hcf : (connect P C).1 = 0 := by rw [connect_fst P C hac, hap]
  have hr2 : irq_bypass_register_consumer (⟨[P], [], 1, true⟩ : Registry) C =
      (0, ⟨[P], [C], 2, true⟩, (connect P C).2) := by
    have h1 : ¬(C.token = 0 ∨ C.has_add_producer = false ∨
        C.has_del_producer = false) := by
      simp [hCap1, hCap2]
      rw [hC]; exact hT
    have heq : P.token = C.token := by rw [hP, hC]
    unfold irq_bypass_register_consumer
    rw [if_neg h1]
    simp only [List.any_nil, List.find?_cons_of_pos _ hbeq, Bool.false_eq_true,
      if_false, hcf]
    simp [heq, hcf]
  rw [hr1, hr2]
  refine ⟨rfl, rfl, ?_, rfl, rfl⟩
  simpa using connect_filter_isConnect P C

/-- Witness for C3 with token 5, a bare producer and a minimal valid
consumer. -/
theorem c3_register_pair_connects_once_witness :
    ((5 : Nat) ≠ 0) ∧
    (irq_bypass_register_producer registryInit ⟨1, 5, false, false, false, 0, false⟩).1 = 0 ∧
    (irq_bypass_register_consumer
      (irq_bypass_register_producer registryInit
        ⟨1, 5, false, false, false, 0, false⟩).2.1
      ⟨2, 5, false, false, true, 0, true⟩).1 = 0 ∧
    (((irq_bypass_register_producer registryInit
        ⟨1, 5, false, false, false, 0, false⟩).2.2 ++
      (irq_bypass_register_consumer
        (irq_bypass_register_producer registryInit
          ⟨1, 5, false, false, false, 0, false⟩).2.1
        ⟨2, 5, false, false, true, 0, true⟩).2.2).filter Event.isConnect) =
      [Event.connectEv 1 2] ∧
    (irq_bypass_register_consumer
      (irq_bypass_register_producer registryInit
        ⟨1, 5, false, false, false, 0, false⟩).2.1
      ⟨2, 5, false, false, true, 0, true⟩).2.1.consumers =
      [⟨2, 5, false, false, true, 0, true⟩] ∧
    (irq_bypass_register_consumer
      (irq_bypass_register_producer registryInit
        ⟨1, 5, false, false, false, 0, false⟩).2.1
      ⟨2, 5, false, false, true, 0, true⟩).2.1.producers =
      [⟨1, 5, false, false, false, 0, false⟩] :=
  ⟨by decide,
   (c3_register_pair_connects_once 5 ⟨1, 5, false, false, false, 0, false⟩
     ⟨2, 5, false, false, true, 0, true⟩ (by decide) rfl rfl rfl rfl
     (Or.inl rfl) rfl).1,
   (c3_register_pair_connects_once 5 ⟨1, 5, false, false, false, 0, false⟩
     ⟨2, 5, false, false, true, 0, true⟩ (by decide) rfl rfl rfl rfl
     (Or.inl rfl) rfl).2.1,
   (c3_register_pair_connects_once 5 ⟨1, 5, false, false, false, 0, false⟩
     ⟨2, 5, false, false, true, 0, true⟩ (by decide) rfl rfl rfl rfl
     (Or.inl rfl) rfl).2.2.1,
   (c3_register_pair_connects_once 5 ⟨1, 5, false, false, false, 0, false⟩
     ⟨2, 5, false, false, true, 0, true⟩ (by decide) rfl rfl rfl rfl
     (Or.inl rfl) rfl).2.2.2.1,
   (c3_register_pair_connects_once 5 ⟨1, 5, false, false, false, 0, false⟩
     ⟨2, 5, false, false, true, 0, true⟩ (by decide) rfl rfl rfl rfl
     (Or.inl rfl) rfl).2.2.2.2⟩

/-- Unregistering a producer whose token matches no registered producer's
token leaves the registry and the callback trace empty-handed. -/
theorem unregister_producer_no_token_match (st : Registry) (p : Producer)
    (hp : ∀ t ∈ st.producers, t.token ≠ p.token) :
    irq_bypass_unregister_producer st p = (st, []) := by
  unfold irq_bypass_unregister_producer
  split_ifs with h1 h2
  · rfl
  · rfl
  · have hfind : st.producers.find? (fun tmp => tmp.token == p.token) = none := by
      rw [List.find?_eq_none]
      intro x hx
      simp [hp x hx]
    rw [hfind]
    rfl

/-- Unregistering a consumer whose identity matches no registered consumer
leaves the registry untouched and invokes no callback. -/
theorem unregister_consumer_no_id_match (st : Registry) (c : Consumer)
    (hc : ∀ t ∈ st.consumers, t.id ≠ c.id) :
    irq_bypass_unregister_consumer st c = (st, []) := by
  unfold irq_bypass_unregister_consumer
  split_ifs with h1 h2
  · rfl
  · rfl
  · have hfind : st.consumers.find? (fun tmp => tmp.id == c.id) = none := by
      rw [List.find?_eq_none]
      intro x hx
      simp [hc x hx]
    rw [hfind]
    rfl

/-- C7 counterexample: a producer object (id 2) that is NOT registered — the
producer set holds only the object with id 1 — but whose token (5) is
registered.  The claim says unregistering it is a no-op invoking no
stop/start/add/remove callbacks; the code instead finds the token match and
disconnects: the mandatory `del_producer` callback of the registered consumer
is invoked with the argument.  (The producer set itself is unchanged — the
`list_del` acts on the argument's own node, so the registered entry with
id 1 stays — but a guard reference is released: refcount drops from 2
to 1.) -/
theorem c7_unregister_unmatched_counterexample :
    ((⟨2, 5, false, false, false, 0, false⟩ : Producer) ∉
      (Registry.mk [⟨1, 5, false, false, false, 0, false⟩]
        [⟨3, 5, false, false, true, 0, true⟩] 2 true).producers) ∧
    (irq_bypass_unregister_producer
      ⟨[⟨1, 5, false, false, false, 0, false⟩],
       [⟨3, 5, false, false, true, 0, true⟩], 2, true⟩
      ⟨2, 5, false, false, false, 0, false⟩).2 =
      [Event.disconnectEv 2 3, Event.delProducer 3 2] ∧
    (irq_bypass_unregister_producer
      ⟨[⟨1, 5, false, false, false, 0, false⟩],
       [⟨3, 5, false, false, true, 0, true⟩], 2, true⟩
      ⟨2, 5, false, false, false, 0, false⟩).1.producers =
      [⟨1, 5, false, false, false, 0, false⟩] ∧
    (irq_bypass_unregister_producer
      ⟨[⟨1, 5, false, false, false, 0, false⟩],
       [⟨3, 5, false, false, true, 0, true⟩], 2, true⟩
      ⟨2, 5, false, false, false, 0, false⟩).1.refcount = 1 := by decide

/-- C7 amended: unregistering a producer whose TOKEN matches no registered
producer, or a consumer not IDENTICAL to any registered consumer, is a no-op:
it returns without error, invokes no callbacks, and leaves the registry
(both sets and the refcount) unchanged.  (A producer argument is looked up by
token, so a distinct producer object carrying a registered token is not a
no-op: the disconnect callbacks run and a guard reference is released, though
the producer set itself is left unchanged.) -/
theorem c7_unregister_unmatched_noop (st : Registry) (p : Producer)
    (c : Consumer)
    (hp : ∀ t ∈ st.producers, t.token ≠ p.token)
    (hc : ∀ t ∈ st.consumers, t.id ≠ c.id) :
    irq_bypass_unregister_producer st p = (st, []) ∧
    irq_bypass_unregister_consumer st c = (st, []) :=
  ⟨unregister_producer_no_token_match st p hp,
   unregister_consumer_no_id_match st c hc⟩

/-- Witness for the amended C7: token 8 matches nothing, consumer id 9
matches nothing. -/
theorem c7_unregister_unmatched_noop_witness :
    (∀ t ∈ (Registry.mk [⟨1, 7, false, false, false, 0, false⟩]
        [⟨1, 7, false, false, true, 0, true⟩] 2 true).producers,
      t.token ≠ (8 : Nat)) ∧
    (∀ t ∈ (Registry.mk [⟨1, 7, false, false, false, 0, false⟩]
        [⟨1, 7, false, false, true, 0, true⟩] 2 true).consumers,
      t.id ≠ (9 : Nat)) ∧
    irq_bypass_unregister_producer
      ⟨[⟨1, 7, false, false, false, 0, false⟩],
       [⟨1, 7, false, false, true, 0, true⟩], 2, true⟩
      ⟨2, 8, false, false, false, 0, false⟩ =
      (⟨[⟨1, 7, false, false, false, 0, false⟩],
        [⟨1, 7, false, false, true, 0, true⟩], 2, true⟩, []) ∧
    irq_bypass_unregister_consumer
      ⟨[⟨1, 7, false, false, false, 0, false⟩],
       [⟨1, 7, false, false, true, 0, true⟩], 2, true⟩
      ⟨9, 7, false, false, true, 0, true⟩ =
      (⟨[⟨1, 7, false, false, false, 0, false⟩],
        [⟨1, 7, false, false, true, 0, true⟩], 2, true⟩, []) :=
  ⟨by decide, by decide,
   (c7_unregister_unmatched_noop _ ⟨2, 8, false, false, false, 0, false⟩
     ⟨9, 7, false, false, true, 0, true⟩ (by decide) (by decide)).1,
   (c7_unregister_unmatched_noop _ ⟨2, 8, false, false, false, 0, false⟩
     ⟨9, 7, false, false, true, 0, true⟩ (by decide) (by decide)).2⟩

/-- C10: the two unregister operations look the entry up differently.  A
consumer argument distinct (by identity) from every registered consumer —
even one sharing its token with a registered consumer — removes nothing and
invokes no callbacks (the call is a complete no-op).  A producer argument
distinct from every registered producer but sharing a registered token DOES
find the token match: the loop body runs, releasing a guard reference
(refcount drops by one), and — whenever some registered consumer shares the
token — the disconnect callbacks are invoked.  (The producer set itself is
not shrunk for such an aliased argument: `list_del` acts on the argument's
own node.) -/
theorem c10_unregister_identity_vs_token (st : Registry) (C C' : Consumer)
    (P P' : Producer)
    (_hCreg : C ∈ st.consumers) (_hCtok : C.token = C'.token)
    (hc : ∀ t ∈ st.consumers, t.id ≠ C'.id)
    (ha : st.alive = true)
    (hPreg : P ∈ st.producers) (hPtok : P.token = P'.token)
    (hpt : P'.token ≠ 0) :
    irq_bypass_unregister_consumer st C' = (st, []) ∧
    (irq_bypass_unregister_producer st P').1.refcount = st.refcount - 1 ∧
    ((∃ t ∈ st.consumers, t.token = P'.token) →
      (irq_bypass_unregister_producer st P').2 ≠ []) := by
  have hbeq : (P.token == P'.token) = true := by simp [hPtok]
  have hsome : (st.producers.find? (fun tmp => tmp.token == P'.token)).isSome := by
    rw [List.find?_isSome]
    exact ⟨P, hPreg, hbeq⟩
  obtain ⟨x, hx⟩ := Option.isSome_iff_exists.mp hsome
  refine ⟨unregister_consumer_no_id_match st C' hc, ?_, ?_⟩
  · unfold irq_bypass_unregister_producer
    rw [if_neg hpt, if_neg (by simp [ha]), hx]
    rfl
  · rintro ⟨t, ht, htk⟩
    have hbeq2 : (t.token == P'.token) = true := by simp [htk]
    have hsome2 :
        (st.consumers.find? (fun consumer => consumer.token == P'.token)).isSome := by
      rw [List.find?_isSome]
      exact ⟨t, ht, hbeq2⟩
    obtain ⟨c, hc2⟩ := Option.isSome_iff_exists.mp hsome2
    unfold irq_bypass_unregister_producer
    rw [if_neg hpt, if_neg (by simp [ha]), hx, hc2]
    simp [disconnect]

/-- Witness for C10: consumer C' (id 2) shares token 5 with registered C
(id 1) yet the call is a complete no-op; producer P' (id 2) shares token 5
with registered P (id 1): a guard reference is released and the registered
consumer's `del_producer` callback runs. -/
theorem c10_unregister_identity_vs_token_witness :
    ((⟨1, 5, false, false, true, 0, true⟩ : Consumer) ∈
      (Registry.mk [⟨1, 5, false, false, false, 0, false⟩]
        [⟨1, 5, false, false, true, 0, true⟩] 2 true).consumers) ∧
    (∀ t ∈ (Registry.mk [⟨1, 5, false, false, false, 0, false⟩]
        [⟨1, 5, false, false, true, 0, true⟩] 2 true).consumers,
      t.id ≠ (2 : Nat)) ∧
    irq_bypass_unregister_consumer
      ⟨[⟨1, 5, false, false, false, 0, false⟩],
       [⟨1, 5, false, false, true, 0, true⟩], 2, true⟩
      ⟨2, 5, false, false, true, 0, true⟩ =
      (⟨[⟨1, 5, false, false, false, 0, false⟩],
        [⟨1, 5, false, false, true, 0, true⟩], 2, true⟩, []) ∧
    (irq_bypass_unregister_producer
      ⟨[⟨1, 5, false, false, false, 0, false⟩],
       [⟨1, 5, false, false, true, 0, true⟩], 2, true⟩
      ⟨2, 5, false, false, false, 0, false⟩).1.refcount = 1 ∧
    (irq_bypass_unregister_producer
      ⟨[⟨1, 5, false, false, false, 0, false⟩],
       [⟨1, 5, false, false, true, 0, true⟩], 2, true⟩
      ⟨2, 5, false, false, false, 0, false⟩).2 ≠ [] :=
  ⟨by decide, by decide,
   (c10_unregister_identity_vs_token _ ⟨1, 5, false, false, true, 0, true⟩
     ⟨2, 5, false, false, true, 0, true⟩ ⟨1, 5, false, false, false, 0, false⟩
     ⟨2, 5, false, false, false, 0, false⟩ (by decide) rfl (by decide)
     (by decide) (by decide) rfl (by decide)).1,
   (c10_unregister_identity_vs_token _ ⟨1, 5, false, false, true, 0, true⟩
     ⟨2, 5, false, false, true, 0, true⟩ ⟨1, 5, false, false, false, 0, false⟩
     ⟨2, 5, false, false, false, 0, false⟩ (by decide) rfl (by decide)
     (by decide) (by decide) rfl (by decide)).2.1,
   (c10_unregister_identity_vs_token _ ⟨1, 5, false, false, true, 0, true⟩
     ⟨2, 5, false, false, true, 0, true⟩ ⟨1, 5, false, false, false, 0, false⟩
     ⟨2, 5, false, false, false, 0, false⟩ (by decide) rfl (by decide)
     (by decide) (by decide) rfl (by decide)).2.2 (by decide)⟩

/-- Registering a producer preserves the structural invariant: the token
scan guards the insertion. -/
theorem wellFormed_register_producer (st : Registry) (p : Producer)
    (h : wellFormed st) :
    wellFormed (irq_bypass_register_producer st p).2.1 := by
  unfold irq_bypass_register_producer
  split_ifs with h1 h2 h3
  · exact h
  · exact h
  · exact h
  · have hfresh : ∀ t ∈ st.producers, ¬(t.token = p.token) := by
      intro t ht he
      exact h3 (List.any_eq_true.mpr ⟨t, ht, by simp [he]⟩)
    have hcons : (p :: st.producers).Pairwise (fun a b => a.token ≠ b.token) :=
      List.pairwise_cons.mpr ⟨fun a ha he => hfresh a ha he.symm, h.1⟩
    cases hf : st.consumers.find? (fun consumer => consumer.token == p.token) with
    | none =>
      dsimp only
      exact ⟨hcons, h.2.1, h.2.2⟩
    | some c =>
      dsimp only
      split_ifs with h4
      · exact h
      · exact ⟨hcons, h.2.1, h.2.2⟩

/-- Registering a consumer preserves the structural invariant: the scan
rejects both token matches and identity matches. -/
theorem wellFormed_register_consumer (st : Registry) (c : Consumer)
    (h : wellFormed st) :
    wellFormed (irq_bypass_register_consumer st c).2.1 := by
  unfold irq_bypass_register_consumer
  split_ifs with h1 h2 h3
  · exact h
  · exact h
  · exact h
  · have hfresh : ∀ t ∈ st.consumers, t.token ≠ c.token ∧ t.id ≠ c.id := by
      intro t ht
      constructor <;> intro he <;>
        exact h3 (List.any_eq_true.mpr ⟨t, ht, by simp [he]⟩)
    have hconsTok : (c :: st.consumers).Pairwise (fun a b => a.token ≠ b.token) :=
      List.pairwise_cons.mpr ⟨fun a ha he => (hfresh a ha).1 he.symm, h.2.1⟩
    have hconsId : (c :: st.consumers).Pairwise (fun a b => a.id ≠ b.id) :=
      List.pairwise_cons.mpr ⟨fun a ha he => (hfresh a ha).2 he.symm, h.2.2⟩
    cases hf : st.producers.find? (fun producer => producer.token == c.token) with
    | none =>
      dsimp only
      exact ⟨h.1, hconsTok, hconsId⟩
    | some p =>
      dsimp only
      split_ifs with h4
      · exact h
      · exact ⟨h.1, hconsTok, hconsId⟩

/-- Unregistering a producer preserves the structural invariant: removal is
a sublist operation. -/
theorem wellFormed_unregister_producer (st : Registry) (p : Producer)
    (h : wellFormed st) :
    wellFormed (irq_bypass_unregister_producer st p).1 := by
  unfold irq_bypass_unregister_producer
  split_ifs with h1 h2
  · exact h
  · exact h
  · cases hf : st.producers.find? (fun tmp => tmp.token == p.token) with
    | none => exact h
    | some x =>
      dsimp only
      exact ⟨h.1.sublist (List.eraseP_sublist _), h.2.1, h.2.2⟩

/-- Unregistering a consumer preserves the structural invariant. -/
theorem wellFormed_unregister_consumer (st : Registry) (c : Consumer)
    (h : wellFormed st) :
    wellFormed (irq_bypass_unregister_consumer st c).1 := by
  unfold irq_bypass_unregister_consumer
  split_ifs with h1 h2
  · exact h
  · exact h
  · cases hf : st.consumers.find? (fun tmp => tmp.id == c.id) with
    | none => exact h
    | some x =>
      dsimp only
      exact ⟨h.1, h.2.1.sublist (List.eraseP_sublist _),
        h.2.2.sublist (List.eraseP_sublist _)⟩

/-- Every single operation preserves the structural invariant. -/
theorem wellFormed_runOp (st : Registry) (op : Op) (h : wellFormed st) :
    wellFormed (runOp st op) := by
  cases op with
  | regP p => exact wellFormed_register_producer st p h
  | unregP p => exact wellFormed_unregister_producer st p h
  | regC c => exact wellFormed_register_consumer st c h
  | unregC c => exact wellFormed_unregister_consumer st c h

/-- C6: after every sequence of the four API operations from the empty
registry, producer tokens are pairwise distinct (at most one producer per
token), consumer tokens are pairwise distinct, and consumer identities are
pairwise distinct (no consumer instance registered twice). -/
theorem c6_registry_structural_invariant (ops : List Op) :
    wellFormed (runOps ops) := by
  have hgen : ∀ l : List Op, ∀ st : Registry, wellFormed st →
      wellFormed (l.foldl runOp st) := by
    intro l
    induction l with
    | nil => exact fun st h => h
    | cons o t ih => exact fun st h => ih (runOp st o) (wellFormed_runOp st o h)
  exact hgen ops registryInit ⟨List.Pairwise.nil, List.Pairwise.nil, List.Pairwise.nil⟩

/-- The liveness-guard accounting survives `registerProducer`: a successful
call keeps one reference for the new entry, every failure path drops the
reference it took. -/
theorem refcount_register_producer (st : Registry) (p : Producer)
    (h : st.refcount = st.producers.length + st.consumers.length) :
    (irq_bypass_register_producer st p).2.1.refcount =
      (irq_bypass_register_producer st p).2.1.producers.length +
      (irq_bypass_register_producer st p).2.1.consumers.length := by
  unfold irq_bypass_register_producer
  split_ifs with h1 h2 h3
  · exact h
  · exact h
  · exact h
  · cases hf : st.consumers.find? (fun consumer => consumer.token == p.token) with
    | none =>
      dsimp only
      simp only [List.length_cons]
      omega
    | some c =>
      dsimp only
      split_ifs with h4
      · exact h
      · dsimp only
        simp only [List.length_cons]
        omega

/-- The liveness-guard accounting survives `registerConsumer`. -/
theorem refcount_register_consumer (st : Registry) (c : Consumer)
    (h : st.refcount = st.producers.length + st.consumers.length) :
    (irq_bypass_register_consumer st c).2.1.refcount =
      (irq_bypass_register_consumer st c).2.1.producers.length +
      (irq_bypass_register_consumer st c).2.1.consumers.length := by
  unfold irq_bypass_register_consumer
  split_ifs with h1 h2 h3
  · exact h
  · exact h
  · exact h
  · cases hf : st.producers.find? (fun producer => producer.token == c.token) with
    | none =>
      dsimp only
      simp only [List.length_cons]
      omega
    | some p =>
      dsimp only
      split_ifs with h4
      · exact h
      · dsimp only
        simp only [List.length_cons]
        omega

/-- The liveness-guard accounting survives a well-used `unregisterProducer`
(the argument is the registered entry its token scan finds): on a match both
the registration reference and the call's short-lived reference are dropped
together with the entry; otherwise the call is reference-neutral. -/
theorem refcount_unregister_producer (st : Registry) (p : Producer)
    (h : st.refcount = st.producers.length + st.consumers.length)
    (hm : argMatchesFound st p = true) :
    (irq_bypass_unregister_producer st p).1.refcount =
      (irq_bypass_unregister_producer st p).1.producers.length +
      (irq_bypass_unregister_producer st p).1.consumers.length := by
  unfold argMatchesFound at hm
  unfold irq_bypass_unregister_producer
  split_ifs with h1 h2
  · exact h
  · exact h
  · cases hf : st.producers.find? (fun tmp => tmp.token == p.token) with
    | none => exact h
    | some x =>
      dsimp only
      rw [hf] at hm
      have hid : (x.id == p.id) = true := hm
      have hlen : (st.producers.eraseP (fun tmp => tmp.id == p.id)).length + 1 =
          st.producers.length :=
        List.length_eraseP_add_one (List.mem_of_find?_eq_some hf) hid
      omega

/-- The liveness-guard accounting survives `unregisterConsumer`. -/
theorem refcount_unregister_consumer (st : Registry) (c : Consumer)
    (h : st.refcount = st.producers.length + st.consumers.length) :
    (irq_bypass_unregister_consumer st c).1.refcount =
      (irq_bypass_unregister_consumer st c).1.producers.length +
      (irq_bypass_unregister_consumer st c).1.consumers.length := by
  unfold irq_bypass_unregister_consumer
  split_ifs with h1 h2
  · exact h
  · exact h
  · cases hf : st.consumers.find? (fun tmp => tmp.id == c.id) with
    | none => exact h
    | some x =>
      dsimp only
      have hlen := List.length_eraseP_add_one
        (List.mem_of_find?_eq_some hf) (List.find?_some hf)
      omega

/-- Every well-used operation preserves the guard-reference accounting. -/
theorem refcount_runOp (st : Registry) (op : Op)
    (h : st.refcount = st.producers.length + st.consumers.length)
    (hok : opGuardOk st op = true) :
    (runOp st op).refcount =
      (runOp st op).producers.length + (runOp st op).consumers.length := by
  cases op with
  | regP p => exact refcount_register_producer st p h
  | unregP p => exact refcount_unregister_producer st p h hok
  | regC c => exact refcount_register_consumer st c h
  | unregC c => exact refcount_unregister_consumer st c h

/-- C9 counterexample: register a producer (id 1, token 5), then call
`unregisterProducer` with a DISTINCT object (id 2) carrying the same token.
The token scan matches, so both `module_put`s run (refcount 1 → 0), but the
`list_del` acts on the argument's own node, so the registered entry stays:
afterwards the refcount (0) differs from the number of registered entries
(1), falsifying the claim's equality as stated over all call sequences. -/
theorem c9_refcount_counterexample :
    (runOps [Op.regP ⟨1, 5, false, false, false, 0, false⟩,
             Op.unregP ⟨2, 5, false, false, false, 0, false⟩]).refcount = 0 ∧
    (runOps [Op.regP ⟨1, 5, false, false, false, 0, false⟩,
             Op.unregP ⟨2, 5, false, false, false, 0, false⟩]).producers.length +
      (runOps [Op.regP ⟨1, 5, false, false, false, 0, false⟩,
               Op.unregP ⟨2, 5, false, false, false, 0, false⟩]).consumers.length =
      1 := by decide

/-- C9 amended: after every completed well-used sequence of API calls from
the empty registry — every `unregisterProducer` call passes the registered
entry its token scan finds, the kernel API's intended usage — the number of
liveness-guard references held equals the number of registered entries: each
successful registration holds exactly one reference, released by the
matching unregistration, and every failure path and every short-lived
unregistration reference is released before the call returns.  (An aliased
`unregisterProducer` — a distinct object whose token is registered — releases
a reference without removing an entry, breaking the equality; on that path
the source also `list_del`s an unlinked foreign node.) -/
theorem c9_refcount_equals_registered_entries (ops : List Op)
    (hops : wellUsed registryInit ops = true) :
    (runOps ops).refcount =
      (runOps ops).producers.length + (runOps ops).consumers.length := by
  have hgen : ∀ l : List Op, ∀ st : Registry,
      st.refcount = st.producers.length + st.consumers.length →
      wellUsed st l = true →
      (l.foldl runOp st).refcount =
        (l.foldl runOp st).producers.length +
        (l.foldl runOp st).consumers.length := by
    intro l
    induction l with
    | nil => exact fun st h _ => h
    | cons o t ih =>
      intro st h hw
      simp only [wellUsed, Bool.and_eq_true] at hw
      exact ih (runOp st o) (refcount_runOp st o h hw.1) hw.2
  exact hgen ops registryInit rfl hops

/-- Witness for the amended C9: a well-used register/unregister round trip
of one producer and one consumer leaves refcount 0 and no entries. -/
theorem c9_refcount_equals_registered_entries_witness :
    wellUsed registryInit
      [Op.regP ⟨1, 5, false, false, false, 0, false⟩,
       Op.regC ⟨2, 5, false, false, true, 0, true⟩,
       Op.unregP ⟨1, 5, false, false, false, 0, false⟩,
       Op.unregC ⟨2, 5, false, false, true, 0, true⟩] = true ∧
    (runOps [Op.regP ⟨1, 5, false, false, false, 0, false⟩,
             Op.regC ⟨2, 5, false, false, true, 0, true⟩,
             Op.unregP ⟨1, 5, false, false, false, 0, false⟩,
             Op.unregC ⟨2, 5, false, false, true, 0, true⟩]).refcount =
      (runOps [Op.regP ⟨1, 5, false, false, false, 0, false⟩,
               Op.regC ⟨2, 5, false, false, true, 0, true⟩,
               Op.unregP ⟨1, 5, false, false, false, 0, false⟩,
               Op.unregC ⟨2, 5, false, false, true, 0, true⟩]).producers.length +
        (runOps [Op.regP ⟨1, 5, false, false, false, 0, false⟩,
                 Op.regC ⟨2, 5, false, false, true, 0, true⟩,
                 Op.unregP ⟨1, 5, false, false, false, 0, false⟩,
                 Op.unregC ⟨2, 5, false, false, true, 0, true⟩]).consumers.length :=
  ⟨by decide,
   c9_refcount_equals_registered_entries
     [Op.regP ⟨1, 5, false, false, false, 0, false⟩,
      Op.regC ⟨2, 5, false, false, true, 0, true⟩,
      Op.unregP ⟨1, 5, false, false, false, 0, false⟩,
      Op.unregC ⟨2, 5, false, false, true, 0, true⟩] (by decide)⟩

end IrqBypass
